import Mathlib

/-!
Verification development for the LinkedInApplicationBot repository.

The definitions below are a shallow embedding of the core interaction logic of
src/linkedin_job_bot.py and src/utils.py:

* the answer resolver (utils.get_answer_for_question),
* the Easy-Apply wizard step loop (LinkedInJobBot._process_application_steps)
  together with its caller (LinkedInJobBot.apply_to_job),
* the job-listing collector (LinkedInJobBot.scroll_through_jobs), and
* the orchestration loop over discovered listings (LinkedInJobBot.run,
  lines 668-682) together with the recorder (LinkedInJobBot.log_application).

Selenium is replaced by explicit data describing what every DOM query made by
the code would return: a wizard cycle reads one Screen value (the answers to
the queries the code performs during that pass of the while loop), and the
collector reads a list of PageRound values (the snapshot of job cards plus the
scroll-height signal observed on each pass).  UI side effects are collected in
an explicit action trace.  Transient exceptions are modelled as typed UIError
values; a raised exception lands in the embedded except-handler exactly when
its type is in the corresponding except tuple of the source, and propagates
outward otherwise (notably, StaleElementReferenceException is missing from the
tuples at lines 441 and 576 and therefore escapes the wizard, apply_to_job and
the run loop).
-/

namespace LinkedInBot

/-- Lower-casing as performed by Python str.lower on the ASCII range
(question.lower() in utils.get_answer_for_question). -/
def strLower (s : String) : String := String.mk (s.toList.map Char.toLower)

/-- Substring test on character lists: true when sub occurs contiguously in
the second list.  Models the Python expression kw in question. -/
def subListC (sub : List Char) : List Char → Bool
  | [] => sub.isEmpty
  | c :: t => sub.isPrefixOf (c :: t) || subListC sub t

/-- Python membership test kw in q on strings. -/
def strIn (kw q : String) : Bool := subListC kw.toList q.toList

/-- Python expression any(kw in question for kw in kws). -/
def anyKw (q : String) (kws : List String) : Bool := kws.any (fun kw => strIn kw q)

/-- Keyword table of utils.get_answer_for_question, experience category. -/
def experienceKeywords : List String := ["years of experience", "how long", "work experience"]

/-- Keyword table of utils.get_answer_for_question, education category. -/
def educationKeywords : List String := ["education", "degree", "qualification"]

/-- Keyword table of utils.get_answer_for_question, relocation category. -/
def relocationKeywords : List String := ["relocate", "relocation", "willing to move"]

/-- Keyword table of utils.get_answer_for_question, sponsorship category. -/
def sponsorshipKeywords : List String := ["sponsorship", "visa", "work authorization"]

/-- Keyword table of utils.get_answer_for_question, remote-work category. -/
def remoteKeywords : List String := ["remote", "work from home", "telecommute"]

/-- Embedding of utils.get_answer_for_question (utils.py lines 346-379).
The Python dict default_answers is modelled as an association list and
dict.get as List.lookup, which likewise yields none for a missing key. -/
def get_answer_for_question (question : String) (default_answers : List (String × String)) :
    Option String :=
  let q := strLower question
  if anyKw q experienceKeywords then List.lookup "years_of_experience" default_answers
  else if anyKw q educationKeywords then List.lookup "education_level" default_answers
  else if anyKw q relocationKeywords then List.lookup "willing_to_relocate" default_answers
  else if anyKw q sponsorshipKeywords then List.lookup "require_sponsorship" default_answers
  else if anyKw q remoteKeywords then List.lookup "remote_work" default_answers
  else none

/-- Model of config.DEFAULT_ANSWERS with the documented default values
(config.py lines 47-53). -/
def defaultAnswersTable : List (String × String) :=
  [("years_of_experience", "2"), ("education_level", "Bachelor's"),
   ("willing_to_relocate", "No"), ("require_sponsorship", "No"), ("remote_work", "Yes")]

/-- Job record extracted by LinkedInJobBot._extract_job_data (lines 354-405):
title, company, location, the Easy Apply flag and the page URL (the listing
identifier). -/
structure JobData where
  title : String
  company : String
  location : String
  has_easy_apply : Bool
  url : String
deriving DecidableEq, Repr

/-- UI side effects performed by the bot; each constructor corresponds to one
Selenium click / send_keys / get call in the source. -/
inductive UIAction where
  | navigate (url : String)
  | clickEasyApply
  | clickReview
  | clickSubmit
  | clickCloseConfirmation
  | fillPhone (value : String)
  | uploadResume (path : String)
  | clickFollowLabel
  | clickNext
  | clickDismiss
  | clickDiscardConfirm
deriving DecidableEq, Repr

/-- The per-user configuration the wizard reads: self.phone_number and
self.resume_path (empty string models an unset value, matching Python
truthiness in the source's conditions). -/
structure BotConfig where
  phone : String
  resume : String
deriving DecidableEq, Repr

/-- The transient Selenium exception types the source deals in, each carrying
its str(e) text: TimeoutException, NoSuchElementException,
ElementClickInterceptedException and StaleElementReferenceException (all four
are imported at lines 29-34). -/
inductive UIError where
  | timeout (msg : String)
  | noSuchElement (msg : String)
  | clickIntercepted (msg : String)
  | staleElement (msg : String)
deriving DecidableEq, Repr

/-- The str(e) text of an exception. -/
def UIError.message : UIError → String
  | UIError.timeout m => m
  | UIError.noSuchElement m => m
  | UIError.clickIntercepted m => m
  | UIError.staleElement m => m

/-- Membership in the except tuples of apply_to_job (line 441) and of the
wizard cycle (line 576): (TimeoutException, NoSuchElementException,
ElementClickInterceptedException).  StaleElementReferenceException is NOT in
either tuple (it is caught only in scroll_through_jobs, line 327), and it is
not a subclass of any listed type, so a stale-element error raised in the
wizard propagates out of both functions. -/
def caughtTransient : UIError → Bool
  | UIError.timeout _ => true
  | UIError.noSuchElement _ => true
  | UIError.clickIntercepted _ => true
  | UIError.staleElement _ => false

/-- One pass of the wizard while loop observes the DOM through a fixed series
of queries; a Screen records what each query of that cycle returns.

transientFailure: some e means a transient UI exception e is raised during
this cycle; whether it lands in the except handler of lines 576-598 or
escapes the wizard depends on its type (caughtTransient).  confirmationAppears
models whether the wait for the confirmation modal succeeds after clicking
submit; exnMsg is the str(e) text of a structurally raised exception (the
confirmation TimeoutException, or a find_element NoSuchElementException on the
success-dialog close button or a field label — all types the line-576 tuple
catches).  labels associates each erroring field id with its label text; a
missing entry models the NoSuchElementException of the label lookup at line
505.  phoneValues are the current values of the tel inputs; followSelected is
the checked state of the follow-company checkbox before the cycle runs (the
code never reads it). -/
structure Screen where
  transientFailure : Option UIError := none
  hasReview : Bool := false
  hasSubmit : Bool := false
  confirmationAppears : Bool := true
  hasSuccess : Bool := false
  closePresent : Bool := true
  requiredFieldIds : List String := []
  labels : List (String × String) := []
  phoneValues : List String := []
  uploadCount : Nat := 0
  hasFollow : Bool := false
  followSelected : Bool := true
  hasNext : Bool := false
  hasDismiss : Bool := true
  hasDiscardConfirm : Bool := true
  exnMsg : String := ""
deriving DecidableEq, Repr

/-- Result of one pass of the wizard while loop: the enclosing function
returns (ret), or the loop continues, carrying the updated notes and whether
the step counter was incremented (only the Continue branch at lines 546-551
increments it), or an exception not matched by the line-576 except tuple
propagates out of _process_application_steps (raised). -/
inductive CycleEnd where
  | ret (status : Bool) (msg : String)
  | next (notes : List String) (stepped : Bool)
  | raised (e : UIError)
deriving DecidableEq, Repr

/-- Notes are joined with a comma-space separator in the returned messages,
as by the Python join calls. -/
def joinNotes (notes : List String) : String := String.intercalate ", " notes

/-- The dismiss-and-discard sequence attempted both on the manual-intervention
branch (lines 560-572) and in the except handler (lines 582-594): click the
Dismiss button when present, then the discard-confirmation button when
prompted. -/
def dismissActions (s : Screen) : List UIAction :=
  if s.hasDismiss then
    UIAction.clickDismiss :: (if s.hasDiscardConfirm then [UIAction.clickDiscardConfirm] else [])
  else []

/-- The except handler of _process_application_steps (lines 576-598): append
an error note mentioning the current step, attempt the dismiss/discard
sequence, and return failure with the joined notes. -/
def exceptTail (s : Screen) (notes : List String) (curStep : Nat) (msg : String) :
    CycleEnd × List UIAction :=
  (CycleEnd.ret false
    ("Error during application: " ++
      joinNotes (notes ++ ["Error in step " ++ toString curStep ++ ": " ++ msg])),
   dismissActions s)

/-- The label-resolution loop over erroring required fields (lines 503-509):
one note per resolved label, in order; a missing label raises (modelled as the
error case, carrying the notes appended before the raise). -/
def collectFieldNotes (labels : List (String × String)) :
    List String → Except (List String) (List String)
  | [] => Except.ok []
  | id :: rest =>
    match List.lookup id labels with
    | some name =>
      match collectFieldNotes labels rest with
      | Except.ok ns => Except.ok (("Required field: " ++ name) :: ns)
      | Except.error ns => Except.error (("Required field: " ++ name) :: ns)
    | none => Except.error []

/-- Phases 3-7 of a wizard cycle, exactly as laid out after the submit block
in _process_application_steps (lines 498-574): required-field notes and phone
fill (the phone fill is nested inside the required-fields branch in the
source), resume upload, follow-company label click, Continue click, and
otherwise the manual-intervention return when no submit action was present.
Returns the cycle outcome and the UI actions of these phases. -/
def afterSubmit (cfg : BotConfig) (s : Screen) (notes : List String) (curStep : Nat) :
    CycleEnd × List UIAction :=
  let step3 : Except (List String) (List String × List UIAction) :=
    if s.requiredFieldIds.isEmpty then Except.ok (notes, [])
    else
      match collectFieldNotes s.labels s.requiredFieldIds with
      | Except.error partialNotes => Except.error (notes ++ partialNotes)
      | Except.ok fieldNotes =>
        let notes1 := notes ++ fieldNotes
        if !s.phoneValues.isEmpty && !(cfg.phone == "") then
          let emptyPhones := s.phoneValues.filter (fun v => v == "")
          Except.ok (notes1 ++ emptyPhones.map (fun _ => "Filled in phone number"),
                     emptyPhones.map (fun _ => UIAction.fillPhone cfg.phone))
        else Except.ok (notes1, [])
  match step3 with
  | Except.error notesE => exceptTail s notesE curStep s.exnMsg
  | Except.ok (notes1, trPhone) =>
    let doUpload : Bool := (s.uploadCount != 0) && !(cfg.resume == "")
    let notes2 := if doUpload then notes1 ++ List.replicate s.uploadCount "Uploaded resume"
                  else notes1
    let tr2 := if doUpload then
                 trPhone ++ List.replicate s.uploadCount (UIAction.uploadResume cfg.resume)
               else trPhone
    let notes3 := if s.hasFollow then notes2 ++ ["Unchecked 'Follow company'"] else notes2
    let tr3 := if s.hasFollow then tr2 ++ [UIAction.clickFollowLabel] else tr2
    if s.hasNext then (CycleEnd.next notes3 true, tr3 ++ [UIAction.clickNext])
    else if !s.hasSubmit then
      (CycleEnd.ret false
        ("Application requires manual intervention: " ++
          joinNotes (notes3 ++ ["Requires manual intervention"])),
       tr3 ++ dismissActions s)
    else (CycleEnd.next notes3 false, tr3)

/-- One full pass of the wizard while loop body (lines 457-598): the review
click, the submit branch with confirmation wait, success check and
close-dialog click (lines 459-496), then phases 3-7 via afterSubmit.  A
transient exception routes into exceptTail only when its type is in the
line-576 except tuple; a StaleElementReferenceException is not, so it
propagates out of the cycle as a raise.  In the ambiguous case (submit
clicked, confirmation shown, no success indicator) the source appends the
note and falls through without returning. -/
def runCycle (cfg : BotConfig) (s : Screen) (notes : List String) (curStep : Nat) :
    CycleEnd × List UIAction :=
  match s.transientFailure with
  | some e =>
    if caughtTransient e then exceptTail s notes curStep e.message
    else (CycleEnd.raised e, [])
  | none =>
    let tr0 := if s.hasReview then [UIAction.clickReview] else []
    if s.hasSubmit then
      let p :=
        if !s.confirmationAppears then exceptTail s notes curStep s.exnMsg
        else if s.hasSuccess then
          if s.closePresent then
            (CycleEnd.ret true "Application submitted successfully",
             [UIAction.clickCloseConfirmation])
          else exceptTail s notes curStep s.exnMsg
        else afterSubmit cfg s (notes ++ ["Submission status unclear"]) curStep
      (p.1, tr0 ++ UIAction.clickSubmit :: p.2)
    else
      let p := afterSubmit cfg s notes curStep
      (p.1, tr0 ++ p.2)

/-- Result of the whole step loop.  ret carries the (status, notes) pair the
Python function returns; raised is an exception escaping the function
uncaught.  outOfScreens is a model artifact: the supplied observation horizon
(list of per-cycle Screens) was exhausted while the while loop was still
running; it records the notes and step counter at that point. -/
inductive WizardResult where
  | ret (status : Bool) (msg : String)
  | raised (e : UIError)
  | outOfScreens (notes : List String) (curStep : Nat)
deriving DecidableEq, Repr

/-- The while loop of _process_application_steps (lines 452-600):
current_step starts at 1, the loop runs while current_step is at most
max_steps = 10, and falling out of the loop returns the too-many-steps
failure.  Each pass consumes the next Screen. -/
def processSteps (cfg : BotConfig) : List Screen → Nat → List String → WizardResult × List UIAction
  | [], curStep, notes =>
    if 10 < curStep then (WizardResult.ret false "Application process took too many steps", [])
    else (WizardResult.outOfScreens notes curStep, [])
  | s :: rest, curStep, notes =>
    if 10 < curStep then (WizardResult.ret false "Application process took too many steps", [])
    else
      match runCycle cfg s notes curStep with
      | (CycleEnd.ret st msg, tr) => (WizardResult.ret st msg, tr)
      | (CycleEnd.raised e, tr) => (WizardResult.raised e, tr)
      | (CycleEnd.next notes2 stepped, tr) =>
        let r := processSteps cfg rest (if stepped then curStep + 1 else curStep) notes2
        (r.1, tr ++ r.2)

/-- Observations of the pre-wizard page interactions of apply_to_job: whether
the job top card loads, the Easy Apply button becomes clickable, and the
application modal appears; errMsg is the str(e) of the raised timeout when one
of them fails. -/
structure JobPage where
  topCardLoads : Bool := true
  easyApplyClickable : Bool := true
  modalAppears : Bool := true
  errMsg : String := ""
deriving DecidableEq, Repr

/-- Embedding of LinkedInJobBot.apply_to_job (lines 407-443): the Easy Apply
guard returns immediately for non-quick-apply jobs; otherwise navigate to the
job URL, click Easy Apply, and run the step loop; failures of the page waits
are caught by the line-441 except tuple and returned as an Error note.  An
exception escaping the step loop hits the same tuple: a type in it would be
converted to an Error return, while a StaleElementReferenceException passes
through and escapes apply_to_job as well. -/
def apply_to_job (cfg : BotConfig) (page : JobPage) (screens : List Screen) (job : JobData) :
    WizardResult × List UIAction :=
  if !job.has_easy_apply then (WizardResult.ret false "Not an Easy Apply job", [])
  else
    let tr := [UIAction.navigate job.url]
    if !page.topCardLoads then (WizardResult.ret false ("Error: " ++ page.errMsg), tr)
    else if !page.easyApplyClickable then (WizardResult.ret false ("Error: " ++ page.errMsg), tr)
    else
      let tr2 := tr ++ [UIAction.clickEasyApply]
      if !page.modalAppears then (WizardResult.ret false ("Error: " ++ page.errMsg), tr2)
      else
        match processSteps cfg screens 1 [] with
        | (WizardResult.raised e, tr3) =>
          if caughtTransient e then
            (WizardResult.ret false ("Error: " ++ e.message), tr2 ++ tr3)
          else (WizardResult.raised e, tr2 ++ tr3)
        | (r, tr3) => (r, tr2 ++ tr3)

/-- Checked state of the follow-company checkbox after the cycle: every click
on its label toggles it.  This models the DOM semantics of the label click the
source performs at line 539. -/
def followStateAfter (s : Screen) (tr : List UIAction) : Bool :=
  if tr.countP (fun a => decide (a = UIAction.clickFollowLabel)) % 2 = 1 then !s.followSelected
  else s.followSelected

/-- One pass of the collector while loop observes: the current snapshot of job
cards (none models a card whose click or extraction fails and is skipped), the
document scroll height measured after scrolling, and whether the explicit
show-more button is present. -/
structure PageRound where
  cards : List (Option JobData)
  newHeight : Nat
  showMore : Bool
deriving DecidableEq, Repr

/-- The inner for loop of scroll_through_jobs (lines 310-329): iterate over
the card window, appending each successfully extracted card and incrementing
job_count only for those. -/
def processWindow : List (Option JobData) → Nat → List JobData → Nat × List JobData
  | [], count, acc => (count, acc)
  | some d :: rest, count, acc => processWindow rest (count + 1) (acc ++ [d])
  | none :: rest, count, acc => processWindow rest count acc

/-- The outer while loop of scroll_through_jobs (lines 302-349): while fewer
than max_jobs collected, process the cards at indices job_count up to
min(len(cards), max_jobs), then scroll; if the height signal is unchanged and
no show-more button exists, terminate; otherwise continue with the next
snapshot.  An exhausted round list ends the observation. -/
def scrollJobs (maxJobs : Nat) : List PageRound → Nat → Nat → List JobData → List JobData
  | [], _, _, acc => acc
  | r :: rest, lastHeight, count, acc =>
    if count < maxJobs then
      let window := (r.cards.drop count).take (min r.cards.length maxJobs - count)
      let p := processWindow window count acc
      if r.newHeight = lastHeight then
        if r.showMore then scrollJobs maxJobs rest r.newHeight p.1 p.2
        else p.2
      else scrollJobs maxJobs rest r.newHeight p.1 p.2
    else acc

/-- Embedding of LinkedInJobBot.scroll_through_jobs (lines 276-352):
cardsPresent models the initial wait for job cards (its timeout returns the
empty list); then the scroll loop runs from the initial height with
job_count = 0 and an empty result list. -/
def scroll_through_jobs (maxJobs : Nat) (initialHeight : Nat) (cardsPresent : Bool)
    (rounds : List PageRound) : List JobData :=
  if cardsPresent then scrollJobs maxJobs rounds initialHeight 0 [] else []

/-- Observable state of one run of the orchestration loop: the ledger rows
appended by log_application (job, success flag, notes), the jobs on which
apply_to_job was invoked, the number of inter-application pacing delays
performed, and the listings left unprocessed when the loop stopped. -/
structure RunTrace where
  ledger : List (JobData × Bool × String)
  navCalls : List JobData
  delays : Nat
  remaining : List JobData
deriving DecidableEq, Repr

/-- The application loop of LinkedInJobBot.run (lines 668-682): iterate the
discovered listings; break once application_count reaches max_applications;
skip listings without the Easy Apply flag; otherwise invoke apply_to_job
(abstracted as applyFn), log one ledger row via log_application, increment the
counter only on success, and sleep once per applied job. -/
def applyLoop (applyFn : JobData → Bool × String) (maxApps : Nat) :
    List JobData → Nat → RunTrace
  | [], _ => ⟨[], [], 0, []⟩
  | j :: rest, count =>
    if maxApps ≤ count then ⟨[], [], 0, j :: rest⟩
    else if j.has_easy_apply then
      let r := applyFn j
      let t := applyLoop applyFn maxApps rest (if r.1 then count + 1 else count)
      ⟨(j, r.1, r.2) :: t.ledger, j :: t.navCalls, t.delays + 1, t.remaining⟩
    else applyLoop applyFn maxApps rest count

/-- The orchestration loop started with application_count = 0, as in
LinkedInJobBot.run. -/
def run (applyFn : JobData → Bool × String) (maxApps : Nat) (listings : List JobData) :
    RunTrace :=
  applyLoop applyFn maxApps listings 0

/-- The same orchestration loop with a navigator that may raise (Sum.inr an
exception escaping apply_to_job).  LinkedInJobBot.run wraps its body only in
try/finally (lines 648-703), so such an exception aborts the iteration on the
spot: the raising job gets no ledger row and no pacing delay (log_application
and the sleep at lines 675-682 are never reached), the remaining listings stay
unprocessed, and the exception leaves run; the second component reports it. -/
def applyLoopExn (applyFn : JobData → (Bool × String) ⊕ UIError) (maxApps : Nat) :
    List JobData → Nat → RunTrace × Option UIError
  | [], _ => (⟨[], [], 0, []⟩, none)
  | j :: rest, count =>
    if maxApps ≤ count then (⟨[], [], 0, j :: rest⟩, none)
    else if j.has_easy_apply then
      match applyFn j with
      | Sum.inl r =>
        let t := applyLoopExn applyFn maxApps rest (if r.1 then count + 1 else count)
        (⟨(j, r.1, r.2) :: t.1.ledger, j :: t.1.navCalls, t.1.delays + 1, t.1.remaining⟩, t.2)
      | Sum.inr e => (⟨[], [j], 0, rest⟩, some e)
    else applyLoopExn applyFn maxApps rest count

/-- Empty bot configuration (no phone number, no resume path). -/
def cfg0 : BotConfig := { phone := "", resume := "" }

/-- The ambiguous-submission screen: a submit action is present, the
confirmation surface appears, but no success indicator and no other control is
found. -/
def ambScreen : Screen := { hasSubmit := true }

/-- A screen offering only the Continue button. -/
def contScreen : Screen := { hasNext := true }

/-- A screen presenting the follow-company control in the deselected state,
with a Continue button. -/
def followScreen : Screen := { hasFollow := true, followSelected := false, hasNext := true }

/-- A screen on which a NoSuchElementException (a type the line-576 tuple
catches) is raised. -/
def caughtErrScreen : Screen :=
  { transientFailure := some (UIError.noSuchElement "no such element") }

/-- A screen on which a StaleElementReferenceException (absent from the
line-576 tuple) is raised. -/
def staleScreen : Screen :=
  { transientFailure := some (UIError.staleElement "stale element reference") }

/-- Quick-apply job fixtures. -/
def jobA : JobData := ⟨"Data Analyst", "Acme", "Remote", true, "https://jobs/a"⟩

/-- A second quick-apply job fixture. -/
def jobB : JobData := ⟨"BI Analyst", "Globex", "Remote", true, "https://jobs/b"⟩

/-- A collector fixture emitted twice in the duplicate scenario. -/
def jobC : JobData := ⟨"Data Engineer", "Initech", "Remote", true, "https://jobs/c"⟩

/-- A collector fixture appearing only in the second snapshot. -/
def jobD : JobData := ⟨"Analyst", "Hooli", "Remote", true, "https://jobs/d"⟩

/-- A job without the Easy Apply flag. -/
def jobNQ : JobData := ⟨"Manager", "Umbrella", "Onsite", false, "https://jobs/nq"⟩

/-- A navigator stub that always succeeds. -/
def applyStub : JobData → Bool × String := fun _ => (true, "Application submitted successfully")

/-- A navigator stub out of which a stale-element error escapes. -/
def applyRaises : JobData → (Bool × String) ⊕ UIError :=
  fun _ => Sum.inr (UIError.staleElement "stale element reference")

/-- True exactly when a cycle ended with the loop continuing and the step
counter not incremented. -/
def isNextUnstepped : CycleEnd → Bool
  | CycleEnd.next _ false => true
  | _ => false

/-- Notes carried by a continuing cycle result. -/
def cycleNotes : CycleEnd → List String
  | CycleEnd.next ns _ => ns
  | CycleEnd.ret _ _ => []
  | CycleEnd.raised _ => []

/-- A screen exposing simultaneously the submit action and a leftover required
phone field (with its label present and the tel input empty), plus a Continue
button. -/
def sC6 : Screen :=
  { hasSubmit := true, requiredFieldIds := ["q1"], labels := [("q1", "Phone")],
    phoneValues := [""], hasNext := true }

/-- A configuration with a phone number set. -/
def cfgC6 : BotConfig := { phone := "5551234567", resume := "" }

/-- A single clean collector snapshot: two distinct listings, both extracted
successfully, page height settles with no show-more button. -/
def roundW : PageRound := ⟨[some jobA, some jobB], 7, false⟩

end LinkedInBot

namespace LinkedInBot

/-- Invariant of the application loop: the number of successful ledger rows is
bounded by the remaining budget, because application_count increments exactly
on success and the loop breaks once it reaches max_applications. -/
theorem applyLoop_countSucc_le (applyFn : JobData → Bool × String) (maxApps : Nat) :
    ∀ (listings : List JobData) (count : Nat),
      (applyLoop applyFn maxApps listings count).ledger.countP (fun e => e.2.1) ≤
        maxApps - count := by
  intro listings
  induction listings with
  | nil => intro count; simp [applyLoop]
  | cons j rest ih =>
    intro count
    by_cases hb : maxApps ≤ count
    · simp [applyLoop, hb]
    · by_cases he : j.has_easy_apply = true
      · have h1 := ih (if (applyFn j).1 then count + 1 else count)
        cases hr : (applyFn j).1 with
        | false =>
          rw [hr] at h1
          simp at h1
          simp [applyLoop, hb, he, hr, List.countP_cons]
          omega
        | true =>
          rw [hr] at h1
          simp at h1
          simp [applyLoop, hb, he, hr, List.countP_cons]
          omega
      · simp only [applyLoop, hb, he, if_false]
        exact ih count

/-- Invariant of the application loop: the processed listings form a prefix of
the input, and the ledger has exactly one row per processed listing carrying
the Easy Apply flag. -/
theorem applyLoop_prefix (applyFn : JobData → Bool × String) (maxApps : Nat) :
    ∀ (listings : List JobData) (count : Nat),
      ∃ p : List JobData,
        p ++ (applyLoop applyFn maxApps listings count).remaining = listings ∧
        (applyLoop applyFn maxApps listings count).ledger.length =
          p.countP (fun j => j.has_easy_apply) := by
  intro listings
  induction listings with
  | nil => intro count; exact ⟨[], by simp [applyLoop]⟩
  | cons j rest ih =>
    intro count
    by_cases hb : maxApps ≤ count
    · exact ⟨[], by simp [applyLoop, hb]⟩
    · by_cases he : j.has_easy_apply = true
      · obtain ⟨p, hp1, hp2⟩ := ih (if (applyFn j).1 then count + 1 else count)
        refine ⟨j :: p, ?_, ?_⟩
        · simp only [applyLoop, hb, he, if_false, if_true]
          simpa using hp1
        · simp only [applyLoop, hb, he, if_false, if_true, List.countP_cons, List.length_cons]
          simp [hp2, he]
      · obtain ⟨p, hp1, hp2⟩ := ih count
        refine ⟨j :: p, ?_, ?_⟩
        · simp only [applyLoop, hb, he, if_false]
          simpa using hp1
        · simp only [applyLoop, hb, he, if_false, List.countP_cons]
          simp [hp2, he]

/-- Invariant of the application loop: every ledger row and every navigator
invocation is for an Easy Apply listing, and exactly one pacing delay is
performed per ledger row. -/
theorem applyLoop_easy (applyFn : JobData → Bool × String) (maxApps : Nat) :
    ∀ (listings : List JobData) (count : Nat),
      (∀ e ∈ (applyLoop applyFn maxApps listings count).ledger, e.1.has_easy_apply = true) ∧
      (∀ x ∈ (applyLoop applyFn maxApps listings count).navCalls, x.has_easy_apply = true) ∧
      (applyLoop applyFn maxApps listings count).delays =
        (applyLoop applyFn maxApps listings count).ledger.length := by
  intro listings
  induction listings with
  | nil => intro count; simp [applyLoop]
  | cons j rest ih =>
    intro count
    by_cases hb : maxApps ≤ count
    · simp [applyLoop, hb]
    · by_cases he : j.has_easy_apply = true
      · obtain ⟨ihl, ihn, ihd⟩ := ih (if (applyFn j).1 then count + 1 else count)
        refine ⟨?_, ?_, ?_⟩
        · simp only [applyLoop, hb, he, if_false, if_true, List.mem_cons]
          rintro e (rfl | hmem)
          · exact he
          · exact ihl e hmem
        · simp only [applyLoop, hb, he, if_false, if_true, List.mem_cons]
          rintro x (rfl | hmem)
          · exact he
          · exact ihn x hmem
        · simp only [applyLoop, hb, he, if_false, if_true, List.length_cons]
          omega
      · simp only [applyLoop, hb, he, if_false]
        exact ih count

/-- When every listing is Easy Apply and every attempt fails, the loop never
breaks early (the success counter stays at zero) and still records one ledger
row per listing: per-job failures do not abort the run. -/
theorem applyLoop_allFail_length (emsg : String) (maxApps : Nat) (hm : 0 < maxApps) :
    ∀ listings : List JobData,
      (∀ j ∈ listings, j.has_easy_apply = true) →
      (applyLoop (fun _ => (false, emsg)) maxApps listings 0).ledger.length =
        listings.length := by
  intro listings
  induction listings with
  | nil => intro _; simp [applyLoop]
  | cons j rest ih =>
    intro hall
    have he : j.has_easy_apply = true := hall j (List.mem_cons_self j rest)
    have hb : ¬ (maxApps ≤ 0) := by omega
    simp [applyLoop, hb, he]
    have := ih (fun x hx => hall x (List.mem_cons_of_mem j hx))
    omega

/-- C1 counterexample: with maxApplications = 1 and two Easy Apply listings
whose attempts both fail, the orchestration loop of LinkedInJobBot.run logs
two ApplicationAttempt records, exceeding maxApplications — the budget bounds
only the success counter, not the ledger length. -/
theorem ledger_can_exceed_budget :
    (run (fun _ => (false, "Error during application: timeout")) 1 [jobA, jobB]).ledger.length
      = 2 ∧
    ¬ ((run (fun _ => (false, "Error during application: timeout")) 1
          [jobA, jobB]).ledger.length ≤ 1) := by
  decide

/-- C1 amended: for every run of the orchestrator, the number of SUCCESSFUL
ledger rows is at most maxApplications, and the total number of
ApplicationAttempt records equals the number of listings carrying
hasQuickApply = true in the processed prefix of the discovered sequence (the
prefix ending where the success budget was met or the listings ran out). -/
theorem ledger_budget_amended (applyFn : JobData → Bool × String) (maxApps : Nat)
    (listings : List JobData) :
    (run applyFn maxApps listings).ledger.countP (fun e => e.2.1) ≤ maxApps ∧
    ∃ p : List JobData,
      p ++ (run applyFn maxApps listings).remaining = listings ∧
      (run applyFn maxApps listings).ledger.length = p.countP (fun j => j.has_easy_apply) := by
  constructor
  · have h := applyLoop_countSucc_le applyFn maxApps listings 0
    simpa [run] using h
  · simpa [run] using applyLoop_prefix applyFn maxApps listings 0

/-- C9: a listing without the Easy Apply flag is skipped by the orchestration
loop: no ledger row mentions it, the navigator (apply_to_job) is never invoked
on it, and pacing delays are applied exactly once per ledger row (hence never
for a skipped listing). -/
theorem non_quick_apply_skipped (applyFn : JobData → Bool × String) (maxApps : Nat)
    (listings : List JobData) (j : JobData) (hmem : j ∈ listings)
    (hqa : j.has_easy_apply = false) :
    (run applyFn maxApps listings).ledger.countP (fun e => decide (e.1 = j)) = 0 ∧
    j ∉ (run applyFn maxApps listings).navCalls ∧
    (run applyFn maxApps listings).delays = (run applyFn maxApps listings).ledger.length := by
  obtain ⟨hl, hn, hd⟩ := applyLoop_easy applyFn maxApps listings 0
  refine ⟨?_, ?_, hd⟩
  · rw [List.countP_eq_zero]
    intro a ha
    simp only [decide_eq_true_eq]
    intro hEq
    have hx := hl a ha
    rw [hEq, hqa] at hx
    exact Bool.false_ne_true hx
  · intro hj
    have hx := hn j hj
    rw [hqa] at hx
    exact Bool.false_ne_true hx

/-- C9 witness at a concrete run: a two-listing feed whose second listing is
not Easy Apply. -/
theorem non_quick_apply_skipped_witness :
    jobNQ ∈ [jobA, jobNQ] ∧ jobNQ.has_easy_apply = false ∧
    ((run applyStub 5 [jobA, jobNQ]).ledger.countP (fun e => decide (e.1 = jobNQ)) = 0 ∧
     jobNQ ∉ (run applyStub 5 [jobA, jobNQ]).navCalls ∧
     (run applyStub 5 [jobA, jobNQ]).delays = (run applyStub 5 [jobA, jobNQ]).ledger.length) :=
  ⟨by decide, by decide,
   non_quick_apply_skipped applyStub 5 [jobA, jobNQ] jobNQ (by decide) (by decide)⟩

/-- C10: invoking apply_to_job on a listing whose has_easy_apply flag is false
returns (False, "Not an Easy Apply job") immediately, with an empty UI action
trace: no navigation, click or text entry is performed and the session state
is untouched. -/
theorem apply_guard_no_ui_actions (cfg : BotConfig) (page : JobPage) (screens : List Screen)
    (job : JobData) (h : job.has_easy_apply = false) :
    apply_to_job cfg page screens job = (WizardResult.ret false "Not an Easy Apply job", []) := by
  simp [apply_to_job, h]

/-- C10 witness at a concrete non-Easy-Apply job. -/
theorem apply_guard_no_ui_actions_witness :
    jobNQ.has_easy_apply = false ∧
    apply_to_job cfg0 {} [ambScreen] jobNQ =
      (WizardResult.ret false "Not an Easy Apply job", []) :=
  ⟨by decide, apply_guard_no_ui_actions cfg0 {} [ambScreen] jobNQ (by decide)⟩

end LinkedInBot

namespace LinkedInBot

/-- A cycle on the ambiguous-submission screen: the submit button is clicked,
the note is appended, and the loop continues without stepping. -/
theorem runCycle_ambScreen (notes : List String) (curStep : Nat) :
    runCycle cfg0 ambScreen notes curStep =
      (CycleEnd.next (notes ++ ["Submission status unclear"]) false,
       [UIAction.clickSubmit]) := rfl

/-- A cycle on the continue-only screen clicks Continue and steps. -/
theorem runCycle_contScreen (notes : List String) (curStep : Nat) :
    runCycle cfg0 contScreen notes curStep =
      (CycleEnd.next notes true, [UIAction.clickNext]) := rfl

/-- On any number of consecutive ambiguous-submission screens the wizard loop
keeps clicking submit, accumulating one note per cycle, with the step counter
stuck at 1: the observation horizon is exhausted with the loop still running,
for every horizon length. -/
theorem processSteps_ambScreen (n : Nat) : ∀ notes : List String,
    processSteps cfg0 (List.replicate n ambScreen) 1 notes =
      (WizardResult.outOfScreens (notes ++ List.replicate n "Submission status unclear") 1,
       List.replicate n UIAction.clickSubmit) := by
  induction n with
  | zero => intro notes; simp [processSteps]
  | succ k ih =>
    intro notes
    rw [List.replicate_succ, processSteps]
    have h1 : ¬ (10 < 1) := by omega
    simp only [h1, if_false, runCycle_ambScreen, Bool.false_eq_true]
    simp [ih, List.replicate_succ, List.append_assoc]

/-- On consecutive continue-only screens starting at step curStep with
curStep + j = 11, the wizard clicks Continue j times and then falls out of the
while loop with the too-many-steps failure, regardless of what follows. -/
theorem processSteps_contScreen (j : Nat) :
    ∀ (curStep : Nat) (notes : List String) (rest : List Screen),
      curStep + j = 11 → 1 ≤ j →
      processSteps cfg0 (List.replicate j contScreen ++ rest) curStep notes =
        (WizardResult.ret false "Application process took too many steps",
         List.replicate j UIAction.clickNext) := by
  induction j with
  | zero => intro _ _ _ _ hj; omega
  | succ k ih =>
    intro curStep notes rest hsum _
    rw [List.replicate_succ, List.cons_append, processSteps]
    have hle : ¬ (10 < curStep) := by omega
    simp only [hle, if_false, runCycle_contScreen]
    cases k with
    | zero =>
      have h11 : 10 < curStep + 1 := by omega
      cases rest with
      | nil => simp [processSteps, h11]
      | cons s rest2 => simp [processSteps, h11]
    | succ m =>
      have hrec := ih (curStep + 1) notes rest (by omega) (by omega)
      rw [List.replicate_succ, List.cons_append] at hrec
      simp [hrec, List.replicate_succ]

/-- C2 counterexample: on a sequence of ambiguous-submission screens (submit
present, confirmation surface shown, no success indicator) the wizard never
terminates the attempt: after three such cycles it is still looping (model
result outOfScreens, step counter unchanged), having clicked submit three
times — it does not return Completed(Failed), contrary to the claim. -/
theorem ambiguous_submission_not_returned :
    processSteps cfg0 [ambScreen, ambScreen, ambScreen] 1 [] =
      (WizardResult.outOfScreens
        ["Submission status unclear", "Submission status unclear", "Submission status unclear"]
        1,
       [UIAction.clickSubmit, UIAction.clickSubmit, UIAction.clickSubmit]) := by
  decide

/-- C2 amended: on an ambiguous submission the wizard appends the note
"Submission status unclear" and continues the loop without incrementing the
step counter instead of returning; if every subsequent cycle presents the same
ambiguous screen, the loop never terminates (the accumulated note is surfaced
only if a later cycle reaches some terminal branch). -/
theorem ambiguous_submission_amended :
    (∀ (cfg : BotConfig) (s : Screen) (notes : List String) (curStep : Nat),
        s.transientFailure = none → s.hasSubmit = true → s.confirmationAppears = true →
        s.hasSuccess = false → s.hasNext = false → s.requiredFieldIds = [] →
        isNextUnstepped (runCycle cfg s notes curStep).1 = true ∧
        "Submission status unclear" ∈ cycleNotes (runCycle cfg s notes curStep).1) ∧
    (∀ (n : Nat) (notes : List String),
        processSteps cfg0 (List.replicate n ambScreen) 1 notes =
          (WizardResult.outOfScreens (notes ++ List.replicate n "Submission status unclear") 1,
           List.replicate n UIAction.clickSubmit)) := by
  constructor
  · intro cfg s notes curStep h1 h2 h3 h4 h5 h6
    simp only [runCycle, h1, h2, h3, h4, afterSubmit, h6, List.isEmpty_nil, if_true]
    simp only [h5, Bool.not_true, Bool.false_eq_true, if_false]
    constructor
    · split <;> simp [isNextUnstepped, h2]
    · split <;> split <;> simp [cycleNotes, h2, List.mem_append]
  · exact fun n notes => processSteps_ambScreen n notes

/-- C2 witness: the general ambiguous-cycle statement applied to the concrete
ambiguous screen. -/
theorem ambiguous_submission_amended_witness :
    isNextUnstepped (runCycle cfg0 ambScreen [] 1).1 = true ∧
    "Submission status unclear" ∈ cycleNotes (runCycle cfg0 ambScreen [] 1).1 :=
  ambiguous_submission_amended.1 cfg0 ambScreen [] 1 rfl rfl rfl rfl rfl rfl

/-- C3 counterexample: the ceiling does not bound loop cycles.  Eleven
ambiguous-submission screens followed by one continue screen drive the loop
through twelve cycles (twelve UI actions, one per cycle) without ever
producing the too-many-steps abort: the step counter, which only the Continue
branch increments, has reached just 2. -/
theorem step_ceiling_not_cycle_bound :
    (processSteps cfg0 (List.replicate 11 ambScreen ++ [contScreen]) 1 []).2.length = 12 ∧
    (processSteps cfg0 (List.replicate 11 ambScreen ++ [contScreen]) 1 []).1 =
      WizardResult.outOfScreens (List.replicate 11 "Submission status unclear") 2 := by
  decide

/-- C3 amended: the ceiling counts Continue transitions, not loop cycles: a
form presenting ten or more consecutive continue screens (in particular the
eleven-screen test) terminates with (False, "Application process took too many
steps") after the tenth Continue click, whatever screens follow; but cycles
that neither return nor click Continue do not advance the counter, so the
number of loop cycles is not bounded by the ceiling. -/
theorem step_ceiling_amended (rest : List Screen) (notes : List String) :
    processSteps cfg0 (List.replicate 10 contScreen ++ rest) 1 notes =
      (WizardResult.ret false "Application process took too many steps",
       List.replicate 10 UIAction.clickNext) :=
  processSteps_contScreen 10 1 notes rest (by omega) (by omega)

/-- C5 counterexample: a StaleElementReferenceException raised during a
wizard cycle is NOT caught inside the attempt.  It is absent from the except
tuples at lines 576 and 441, so it escapes _process_application_steps with no
note appended and no dismiss performed, escapes apply_to_job, and — run having
only try/finally — aborts the whole iteration: the raising job gets no ledger
row and the remaining listing is never processed. -/
theorem stale_error_escapes_attempt :
    processSteps cfg0 [staleScreen] 1 [] =
      (WizardResult.raised (UIError.staleElement "stale element reference"), []) ∧
    apply_to_job cfg0 {} [staleScreen] jobA =
      (WizardResult.raised (UIError.staleElement "stale element reference"),
       [UIAction.navigate "https://jobs/a", UIAction.clickEasyApply]) ∧
    (applyLoopExn applyRaises 5 [jobA, jobB] 0).1.ledger = [] ∧
    (applyLoopExn applyRaises 5 [jobA, jobB] 0).1.remaining = [jobB] ∧
    (applyLoopExn applyRaises 5 [jobA, jobB] 0).2 =
      some (UIError.staleElement "stale element reference") := by
  decide

/-- C5 amended: transient UI errors whose type is in the line-576 except
tuple (timeout, element not found, click intercepted) are caught inside the
attempt — the error note naming the current step is appended, the
dismiss/discard sequence is attempted, and the cycle returns failure (first
conjunct: such an error raised in the cycle; second conjunct: the
confirmation-wait timeout after the submit click) — and per-job errors of
these types never abort the run: with every attempt failing, the loop still
records every Easy Apply listing (third conjunct).  But a stale element
reference is not in the tuple: it escapes the cycle uncaught with no note and
no dismissal (fourth conjunct), and a navigator raise aborts the run on the
spot — no ledger row, no delay, remaining listings unprocessed (fifth
conjunct). -/
theorem transient_error_amended :
    (∀ (cfg : BotConfig) (s : Screen) (notes : List String) (curStep : Nat) (e : UIError),
        s.transientFailure = some e → caughtTransient e = true →
        runCycle cfg s notes curStep =
          (CycleEnd.ret false
            ("Error during application: " ++
              joinNotes (notes ++ ["Error in step " ++ toString curStep ++ ": " ++ e.message])),
           dismissActions s)) ∧
    (∀ (cfg : BotConfig) (s : Screen) (notes : List String) (curStep : Nat),
        s.transientFailure = none → s.hasSubmit = true → s.confirmationAppears = false →
        runCycle cfg s notes curStep =
          (CycleEnd.ret false
            ("Error during application: " ++
              joinNotes (notes ++ ["Error in step " ++ toString curStep ++ ": " ++ s.exnMsg])),
           (if s.hasReview then [UIAction.clickReview] else []) ++
             UIAction.clickSubmit :: dismissActions s)) ∧
    (∀ (emsg : String) (maxApps : Nat) (listings : List JobData),
        0 < maxApps → (∀ j ∈ listings, j.has_easy_apply = true) →
        (run (fun _ => (false, emsg)) maxApps listings).ledger.length = listings.length) ∧
    (∀ (cfg : BotConfig) (s : Screen) (notes : List String) (curStep : Nat) (m : String),
        s.transientFailure = some (UIError.staleElement m) →
        runCycle cfg s notes curStep =
          (CycleEnd.raised (UIError.staleElement m), [])) ∧
    (∀ (applyFn : JobData → (Bool × String) ⊕ UIError) (maxApps : Nat) (j : JobData)
        (rest : List JobData) (err : UIError),
        0 < maxApps → j.has_easy_apply = true → applyFn j = Sum.inr err →
        applyLoopExn applyFn maxApps (j :: rest) 0 = (⟨[], [j], 0, rest⟩, some err)) := by
  refine ⟨?_, ?_, ?_, ?_, ?_⟩
  · intro cfg s notes curStep e h hc
    simp [runCycle, h, hc, exceptTail]
  · intro cfg s notes curStep h1 h2 h3
    simp [runCycle, h1, h2, h3, exceptTail]
  · intro emsg maxApps listings hm hall
    simpa [run] using applyLoop_allFail_length emsg maxApps hm listings hall
  · intro cfg s notes curStep m h
    simp [runCycle, h, caughtTransient]
  · intro applyFn maxApps j rest err hm hj hr
    have hb : ¬ (maxApps ≤ 0) := by omega
    simp [applyLoopExn, hb, hj, hr]

/-- C5 witness: both regimes at concrete inputs — a caught
NoSuchElementException is converted into the Error return with dismissal, and
a stale-element error escapes the cycle and aborts the run. -/
theorem transient_error_amended_witness :
    (caughtTransient (UIError.noSuchElement "no such element") = true ∧
     runCycle cfg0 caughtErrScreen [] 1 =
       (CycleEnd.ret false
         ("Error during application: " ++
           joinNotes ([] ++ ["Error in step " ++ toString 1 ++ ": " ++
             (UIError.noSuchElement "no such element").message])),
        dismissActions caughtErrScreen)) ∧
    runCycle cfg0 staleScreen [] 1 =
      (CycleEnd.raised (UIError.staleElement "stale element reference"), []) ∧
    applyLoopExn applyRaises 3 [jobA, jobB] 0 =
      (⟨[], [jobA], 0, [jobB]⟩, some (UIError.staleElement "stale element reference")) :=
  ⟨⟨by decide,
    transient_error_amended.1 cfg0 caughtErrScreen [] 1
      (UIError.noSuchElement "no such element") rfl (by decide)⟩,
   transient_error_amended.2.2.2.1 cfg0 staleScreen [] 1 "stale element reference" rfl,
   transient_error_amended.2.2.2.2 applyRaises 3 jobA [jobB]
     (UIError.staleElement "stale element reference") (by omega) rfl rfl⟩

/-- C6: per-cycle classification order.  Whenever a submit action is present
(and no transient error pre-empts the cycle), the submit click occurs in the
cycle trace, and every action before it is at most the review click — in
particular, any phone-field fill of the required-field phase happens only
after the submit action has been invoked. -/
theorem submit_precedes_field_resolution (cfg : BotConfig) (s : Screen) (notes : List String)
    (curStep : Nat) (h1 : s.transientFailure = none) (h2 : s.hasSubmit = true) :
    0 < (runCycle cfg s notes curStep).2.countP
        (fun a => decide (a = UIAction.clickSubmit)) ∧
    ((runCycle cfg s notes curStep).2.takeWhile
        (fun a => !(decide (a = UIAction.clickSubmit)))).all
      (fun a => decide (a = UIAction.clickReview)) = true := by
  simp only [runCycle, h1, h2, if_true]
  cases hR : s.hasReview <;>
    simp [List.countP_cons, List.countP_append, List.takeWhile, List.all]

/-- C6 witness: a screen exposing both the submit action and a leftover
required phone field; the theorem yields submit-first ordering on its trace. -/
theorem submit_precedes_field_resolution_witness :
    sC6.transientFailure = none ∧ sC6.hasSubmit = true ∧
    (0 < (runCycle cfgC6 sC6 [] 1).2.countP
        (fun a => decide (a = UIAction.clickSubmit)) ∧
     ((runCycle cfgC6 sC6 [] 1).2.takeWhile
        (fun a => !(decide (a = UIAction.clickSubmit)))).all
      (fun a => decide (a = UIAction.clickReview)) = true) :=
  ⟨rfl, rfl, submit_precedes_field_resolution cfgC6 sC6 [] 1 rfl rfl⟩

/-- C7: evaluation at the failing input.  On a screen presenting the
follow-company control initially deselected, the cycle clicks the label once
(line 539 clicks unconditionally, without reading the checked state), which
toggles the checkbox to selected: the user is opted into following the
company, contrary to the claim and to the source's own comment. -/
theorem follow_toggle_selects_deselected_box :
    followScreen.followSelected = false ∧
    runCycle cfg0 followScreen [] 1 =
      (CycleEnd.next ["Unchecked 'Follow company'"] true,
       [UIAction.clickFollowLabel, UIAction.clickNext]) ∧
    followStateAfter followScreen [UIAction.clickFollowLabel, UIAction.clickNext] = true := by
  decide

end LinkedInBot

namespace LinkedInBot

/-- An exhausted round list ends the collector observation with the
accumulated listings. -/
theorem scrollJobs_nil (maxJobs lastHeight count : Nat) (acc : List JobData) :
    scrollJobs maxJobs [] lastHeight count acc = acc := rfl

/-- The inner card loop appends exactly the successfully extracted cards of
the window, in order, advancing job_count once per extracted card. -/
theorem processWindow_spec :
    ∀ (window : List (Option JobData)) (count : Nat) (acc : List JobData),
      processWindow window count acc =
        (count + (window.filterMap id).length, acc ++ window.filterMap id) := by
  intro window
  induction window with
  | nil => intro count acc; simp [processWindow]
  | cons h t ih =>
    intro count acc
    cases h with
    | none => simp [processWindow, ih, List.filterMap_cons]
    | some d =>
      simp only [processWindow, ih, List.filterMap_cons]
      refine Prod.ext ?_ ?_
      · simp; omega
      · simp

/-- C4 counterexample: the collector emits the same listing id twice.  In the
first snapshot the second card fails extraction, so job_count (2) lags the
processed index; the page grows, and the second snapshot re-renders the same
items, so the card of jobC at index 2 is processed again: the output contains
the URL of jobC twice, refuting emit-exactly-once. -/
theorem collector_emits_duplicate :
    (scroll_through_jobs 10 0 true
        [⟨[some jobA, none, some jobC], 5, false⟩,
         ⟨[some jobA, none, some jobC, some jobD], 5, false⟩]).countP
      (fun d => decide (d.url = "https://jobs/c")) = 2 ∧
    ¬ ((scroll_through_jobs 10 0 true
        [⟨[some jobA, none, some jobC], 5, false⟩,
         ⟨[some jobA, none, some jobC, some jobD], 5, false⟩]).countP
      (fun d => decide (d.url = "https://jobs/c")) ≤ 1) := by
  decide

/-- C4 amended: the collector advances a positional cursor (the count of
collected listings), not a URL-keyed set.  For a feed consisting of a single
snapshot whose extracted listings have pairwise-distinct URLs, each listing id
appears at most once in the output; overlapping snapshots re-processed after a
skipped card can duplicate an id (see the counterexample). -/
theorem collector_single_snapshot_unique (maxJobs initialHeight : Nat) (pres : Bool)
    (r : PageRound)
    (hnd : ((r.cards.filterMap id).map (fun d => d.url)).Nodup) :
    ((scroll_through_jobs maxJobs initialHeight pres [r]).map (fun d => d.url)).Nodup := by
  cases pres with
  | false => simp [scroll_through_jobs]
  | true =>
    have hmain : scroll_through_jobs maxJobs initialHeight true [r] = [] ∨
        scroll_through_jobs maxJobs initialHeight true [r] =
          (r.cards.take (min r.cards.length maxJobs)).filterMap id := by
      by_cases h0 : 0 < maxJobs
      · right
        simp only [scroll_through_jobs, if_true, scrollJobs, h0, processWindow_spec,
          List.drop_zero, Nat.sub_zero, List.nil_append]
        split
        · split
          · rfl
          · rfl
        · rfl
      · left
        simp [scroll_through_jobs, scrollJobs, h0]
    rcases hmain with h | h
    · simp [h]
    · rw [h]
      have hsub :
          (((r.cards.take (min r.cards.length maxJobs)).filterMap id).map
              (fun d => d.url)).Sublist
            ((r.cards.filterMap id).map (fun d => d.url)) :=
        ((List.take_sublist _ _).filterMap id).map _
      exact hnd.sublist hsub

/-- C4 witness: a clean single-snapshot feed with distinct URLs yields each id
at most once. -/
theorem collector_single_snapshot_unique_witness :
    ((roundW.cards.filterMap id).map (fun d => d.url)).Nodup ∧
    ((scroll_through_jobs 10 0 true [roundW]).map (fun d => d.url)).Nodup :=
  ⟨by decide, collector_single_snapshot_unique 10 0 true roundW (by decide)⟩

end LinkedInBot

namespace LinkedInBot

/-- C8: the answer resolver contract.  First conjunct: the result depends on
the prompt only through its lower-cased text.  Second conjunct: the categories
are tried in the fixed order experience, education, relocation, sponsorship,
remote-work, first match winning, and a match returns exactly the stored
profile value (so an empty stored string is returned as-is, never manufactured
from none).  Third conjunct: when the profile table defines the five fields
(as config.DEFAULT_ANSWERS always does), the resolver returns none exactly
when no keyword category matches the prompt. -/
theorem answer_resolver_contract :
    (∀ (q1 q2 : String) (d : List (String × String)), strLower q1 = strLower q2 →
        get_answer_for_question q1 d = get_answer_for_question q2 d) ∧
    (∀ (q : String) (d : List (String × String)),
        (anyKw (strLower q) experienceKeywords = true →
          get_answer_for_question q d = List.lookup "years_of_experience" d) ∧
        (anyKw (strLower q) experienceKeywords = false →
          anyKw (strLower q) educationKeywords = true →
          get_answer_for_question q d = List.lookup "education_level" d) ∧
        (anyKw (strLower q) experienceKeywords = false →
          anyKw (strLower q) educationKeywords = false →
          anyKw (strLower q) relocationKeywords = true →
          get_answer_for_question q d = List.lookup "willing_to_relocate" d) ∧
        (anyKw (strLower q) experienceKeywords = false →
          anyKw (strLower q) educationKeywords = false →
          anyKw (strLower q) relocationKeywords = false →
          anyKw (strLower q) sponsorshipKeywords = true →
          get_answer_for_question q d = List.lookup "require_sponsorship" d) ∧
        (anyKw (strLower q) experienceKeywords = false →
          anyKw (strLower q) educationKeywords = false →
          anyKw (strLower q) relocationKeywords = false →
          anyKw (strLower q) sponsorshipKeywords = false →
          anyKw (strLower q) remoteKeywords = true →
          get_answer_for_question q d = List.lookup "remote_work" d) ∧
        (anyKw (strLower q) experienceKeywords = false →
          anyKw (strLower q) educationKeywords = false →
          anyKw (strLower q) relocationKeywords = false →
          anyKw (strLower q) sponsorshipKeywords = false →
          anyKw (strLower q) remoteKeywords = false →
          get_answer_for_question q d = none)) ∧
    (∀ (q : String) (d : List (String × String)),
        (List.lookup "years_of_experience" d).isSome = true →
        (List.lookup "education_level" d).isSome = true →
        (List.lookup "willing_to_relocate" d).isSome = true →
        (List.lookup "require_sponsorship" d).isSome = true →
        (List.lookup "remote_work" d).isSome = true →
        (get_answer_for_question q d = none ↔
          (anyKw (strLower q) experienceKeywords = false ∧
           anyKw (strLower q) educationKeywords = false ∧
           anyKw (strLower q) relocationKeywords = false ∧
           anyKw (strLower q) sponsorshipKeywords = false ∧
           anyKw (strLower q) remoteKeywords = false))) := by
  refine ⟨?_, ?_, ?_⟩
  · intro q1 q2 d h
    simp only [get_answer_for_question]
    rw [h]
  · intro q d
    refine ⟨?_, ?_, ?_, ?_, ?_, ?_⟩
    · intro h1; simp [get_answer_for_question, h1]
    · intro h1 h2; simp [get_answer_for_question, h1, h2]
    · intro h1 h2 h3; simp [get_answer_for_question, h1, h2, h3]
    · intro h1 h2 h3 h4; simp [get_answer_for_question, h1, h2, h3, h4]
    · intro h1 h2 h3 h4 h5; simp [get_answer_for_question, h1, h2, h3, h4, h5]
    · intro h1 h2 h3 h4 h5; simp [get_answer_for_question, h1, h2, h3, h4, h5]
  · intro q d k1 k2 k3 k4 k5
    constructor
    · intro hn
      cases hA : anyKw (strLower q) experienceKeywords <;>
        cases hB : anyKw (strLower q) educationKeywords <;>
          cases hC : anyKw (strLower q) relocationKeywords <;>
            cases hD : anyKw (strLower q) sponsorshipKeywords <;>
              cases hE : anyKw (strLower q) remoteKeywords <;>
                simp_all [get_answer_for_question] <;>
                  first
                  | (obtain ⟨x, hx⟩ := k1; exact hn _ _ hx rfl)
                  | (obtain ⟨x, hx⟩ := k2; exact hn _ _ hx rfl)
                  | (obtain ⟨x, hx⟩ := k3; exact hn _ _ hx rfl)
                  | (obtain ⟨x, hx⟩ := k4; exact hn _ _ hx rfl)
                  | (obtain ⟨x, hx⟩ := k5; exact hn _ _ hx rfl)
    · rintro ⟨hA, hB, hC, hD, hE⟩
      simp [get_answer_for_question, hA, hB, hC, hD, hE]

/-- C8 witness: the resolver on the default profile answers an experience
prompt with the stored value and a prompt matching no category with none. -/
theorem answer_resolver_contract_witness :
    anyKw (strLower "How many years of experience do you have?") experienceKeywords = true ∧
    get_answer_for_question "How many years of experience do you have?" defaultAnswersTable
      = some "2" ∧
    get_answer_for_question "What is your favorite color?" defaultAnswersTable = none :=
  ⟨by decide,
   ((answer_resolver_contract.2.1 "How many years of experience do you have?"
        defaultAnswersTable).1 (by decide)).trans (by decide),
   (answer_resolver_contract.2.1 "What is your favorite color?"
        defaultAnswersTable).2.2.2.2.2 (by decide) (by decide) (by decide) (by decide)
     (by decide)⟩

end LinkedInBot

namespace LinkedInBot

/-- C1 witness: the success-count bound at a concrete run. -/
theorem ledger_budget_amended_witness :
    (run applyStub 2 [jobA, jobB, jobNQ]).ledger.countP (fun e => e.2.1) ≤ 2 :=
  (ledger_budget_amended applyStub 2 [jobA, jobB, jobNQ]).1

/-- C3 witness: the eleven-continue-screen form of the spec test aborts with
the too-many-steps failure after ten Continue clicks. -/
theorem step_ceiling_amended_witness :
    processSteps cfg0 (List.replicate 10 contScreen ++ [contScreen]) 1 [] =
      (WizardResult.ret false "Application process took too many steps",
       List.replicate 10 UIAction.clickNext) :=
  step_ceiling_amended [contScreen] []

end LinkedInBot
